import Mathlib

/-!
Verification of the dual-mode remote-process handle of `src/nvim/client.rs`
(neovim-gtk). The Rust code owns a single live `Neovim` session and arbitrates
access to it through two slots:

* a shared slot `nvim_async : Arc<Mutex<Option<Neovim>>>` used during
  asynchronous startup, and
* an exclusive slot `nvim : RefCell<Option<Neovim>>` used after promotion,

together with a lifecycle state `Cell<NeovimClientState>`.

The embedding below is sequential and explicit-state: the opaque `Neovim`
session is modelled as a natural-number identifier (it is only ever moved,
never inspected), the mutex contents are the `Option Session` they guard, and
contention on `Mutex::try_lock` is an explicit boolean parameter (`contended`)
supplied by the environment.  A Rust operation that can panic (an `unwrap`
on an empty option) is modelled as returning `Option`/`none` for the aborted
execution; `none` is the abort, not a recoverable return value of the Rust
function, whose return type is `()`.
-/

/-- The opaque `Neovim` session handle: only moved between slots, never
inspected, so a bare identifier suffices. -/
abbrev Session := Nat

/-- Embeds `enum NeovimClientState` from client.rs. -/
inductive NeovimClientState where
  | Uninitialized
  | InitInProgress
  | Initialized
  | Error
  deriving DecidableEq, Repr

/-- Embeds `enum NeovimRef<'a>` from client.rs: the borrowed reference, tagged by the
slot that produced it (`SingleThreaded` = exclusive `RefCell` slot,
`MultiThreaded` = shared mutex slot).  We record the session it grants access
to. -/
inductive NeovimRef where
  | SingleThreaded (s : Session)
  | MultiThreaded (s : Session)
  deriving DecidableEq, Repr

/-- Embeds `struct NeovimClient` from client.rs: lifecycle state, exclusive slot
`nvim` and the contents of the shared slot `nvim_async` (the `Option` inside
the `Arc<Mutex<...>>`).  Cloning the `NeovimClientAsync` handle shares the same
cell, so one field models every clone. -/
structure NeovimClient where
  state : NeovimClientState
  nvim : Option Session
  nvim_async : Option Session
  deriving DecidableEq, Repr

namespace NeovimRef

/-- Embeds `NeovimRef::try_nvim_async`: `try_lock` on the shared slot; on contention
(`contended = true`) or an empty slot it yields `none`, otherwise the
multi-threaded guard. -/
def try_nvim_async (contents : Option Session) (contended : Bool) : Option NeovimRef :=
  if contended then none
  else
    match contents with
    | some s => some (.MultiThreaded s)
    | none => none

/-- Embeds `NeovimRef::from_nvim_async`: blocking `lock` on the shared slot; in this
sequential model the lock is always acquired, and an empty slot yields
`none`. -/
def from_nvim_async (contents : Option Session) : Option NeovimRef :=
  match contents with
  | some s => some (.MultiThreaded s)
  | none => none

end NeovimRef

namespace NeovimClient

/-- Embeds `NeovimClient::new`. -/
def new : NeovimClient :=
  { state := .Uninitialized, nvim := none, nvim_async := none }

/-- Embeds `NeovimClient::clear`: if the exclusive slot is occupied, `take` it;
otherwise lock the shared slot and `take` whatever it holds. -/
def clear (c : NeovimClient) : NeovimClient :=
  if c.nvim.isSome then { c with nvim := none }
  else { c with nvim_async := none }

/-- Embeds `NeovimClient::async_to_sync`: lock the shared slot, `take().unwrap()` the
session out of it and install it in the exclusive slot.  The `unwrap` panics
when the shared slot is empty; the aborted execution is modelled as `none`
(the Rust function returns `()` and has no error return). -/
def async_to_sync (c : NeovimClient) : Option NeovimClient :=
  match c.nvim_async with
  | some s => some { c with nvim := some s, nvim_async := none }
  | none => none

/-- Embeds `NeovimClient::set_nvim_async`: store the session in the shared slot,
replacing any previous content.  The Rust function also returns a clone of the
`NeovimClientAsync` handle; the clone shares the same cell, so only the new
state matters here. -/
def set_nvim_async (c : NeovimClient) (s : Session) : NeovimClient :=
  { c with nvim_async := some s }

/-- Embeds `NeovimClient::set_initialized`. -/
def set_initialized (c : NeovimClient) : NeovimClient :=
  { c with state := .Initialized }

/-- Embeds `NeovimClient::set_error`. -/
def set_error (c : NeovimClient) : NeovimClient :=
  { c with state := .Error }

/-- Embeds `NeovimClient::set_in_progress`. -/
def set_in_progress (c : NeovimClient) : NeovimClient :=
  { c with state := .InitInProgress }

/-- Embeds `NeovimClient::is_initialized`. -/
def is_initialized (c : NeovimClient) : Bool :=
  c.state == .Initialized

/-- Embeds `NeovimClient::is_uninitialized`. -/
def is_uninitialized (c : NeovimClient) : Bool :=
  c.state == .Uninitialized

/-- Embeds `NeovimClient::is_initializing`. -/
def is_initializing (c : NeovimClient) : Bool :=
  c.state == .InitInProgress

/-- Embeds `NeovimClient::try_nvim`: if the exclusive slot is occupied return the
single-threaded reference directly, otherwise delegate to the shared slot's
non-blocking `try_borrow`. -/
def try_nvim (c : NeovimClient) (contended : Bool) : Option NeovimRef :=
  match c.nvim with
  | some s => some (.SingleThreaded s)
  | none => NeovimRef.try_nvim_async c.nvim_async contended

/-- Embeds `NeovimClient::nvim` (the blocking unified accessor; named `nvim_op` here
because the structure field already carries the source name `nvim`): if the
exclusive slot is occupied return the single-threaded reference directly,
otherwise delegate to the shared slot's blocking `borrow`. -/
def nvim_op (c : NeovimClient) : Option NeovimRef :=
  match c.nvim with
  | some s => some (.SingleThreaded s)
  | none => NeovimRef.from_nvim_async c.nvim_async

end NeovimClient

/-- One client-handle operation, for stating properties over arbitrary call
sequences.  `borrow`/`try_borrow` are the accessors `nvim`/`try_nvim`; they
return references but do not change the handle's state. -/
inductive Op where
  | clear
  | async_to_sync
  | set_nvim_async (s : Session)
  | set_initialized
  | set_error
  | set_in_progress
  | borrow
  | try_borrow (contended : Bool)
  deriving DecidableEq, Repr

/-- Apply one operation to the handle state.  `async_to_sync` on an empty
shared slot panics and the process aborts, so the trace has no real successor
state; keeping the prior state there is conservative (it adds no state that
was not already reached). -/
def applyOp (c : NeovimClient) : Op → NeovimClient
  | .clear => c.clear
  | .async_to_sync => (c.async_to_sync).getD c
  | .set_nvim_async s => c.set_nvim_async s
  | .set_initialized => c.set_initialized
  | .set_error => c.set_error
  | .set_in_progress => c.set_in_progress
  | .borrow => c
  | .try_borrow _ => c

/-- Apply a sequence of operations left to right. -/
def applyOps (c : NeovimClient) (ops : List Op) : NeovimClient :=
  ops.foldl applyOp c

/-- At most one of the two slots holds a session. -/
def atMostOneSlot (c : NeovimClient) : Bool :=
  c.nvim.isNone || c.nvim_async.isNone

/-- The guard of the usage discipline: `set_nvim_async` is only invoked while
the exclusive slot is empty (re-initialization goes through `clear` first);
every other operation is unrestricted. -/
def opGuard (c : NeovimClient) : Op → Bool
  | .set_nvim_async _ => c.nvim.isNone
  | _ => true

/-- A sequence of operations respects the usage discipline from state `c`. -/
def disciplined : NeovimClient → List Op → Bool
  | _, [] => true
  | c, op :: ops => opGuard c op && disciplined (applyOp c op) ops

/-! ### The mode query and `NeovimRef::non_blocked` -/

/-- A msgpack-rpc value as used by `get_mode`, reduced to the shapes
`non_blocked` inspects through `as_str` and `as_bool`. -/
inductive Value where
  | str (s : String)
  | boolean (b : Bool)
  | int (n : Int)
  | nil
  deriving DecidableEq, Repr

/-- Embeds `Value::as_str`. -/
def Value.as_str : Value → Option String
  | .str s => some s
  | _ => none

/-- Embeds `Value::as_bool`. -/
def Value.as_bool : Value → Option Bool
  | .boolean b => some b
  | _ => none

/-- Modelled from the spec: `ErrorReport::ok_and_report` (from
`super::ErrorReport`, whose source file is not part of this fragment) reports
a failed result to the logging collaborator and converts the result to an
option — `A failed mode query is reported to the logging collaborator and
conservatively treated as blocked`.  The logging is an external side effect;
the value-level behaviour is `Result`-to-`Option`. -/
def ok_and_report {α : Type} (r : Except Unit α) : Option α :=
  r.toOption

/-- The predicate `non_blocked` passes to `find`: the entry's key is a string
equal to "blocking" (`kv.0.as_str().map(|key| key == "blocking").unwrap_or(false)`). -/
def is_blocking_entry (kv : Value × Value) : Bool :=
  ((kv.fst.as_str).map fun key => key == "blocking").getD false

/-- Embeds `NeovimRef::non_blocked`, with the outcome of `self.get_mode()` supplied
as a parameter (the session is opaque): on a successful query, find the first
"blocking" entry, read its boolean value with default `false`, and keep the
reference exactly when that value is `false`; otherwise drop it. -/
def non_blocked (mode_result : Except Unit (List (Value × Value))) (r : NeovimRef) :
    Option NeovimRef :=
  (ok_and_report mode_result).bind fun mode =>
    ((mode.find? is_blocking_entry).map fun kv => (kv.snd.as_bool).getD false).bind
      fun block => if block then none else some r

/-- The first "blocking" entry's value read as the code reads it (`as_bool`
defaulted to `false`); `none` when no entry has the key "blocking".  The mode
query "reports non-blocking" when this is `some false`. -/
def blocking_flag (mode : List (Value × Value)) : Option Bool :=
  (mode.find? is_blocking_entry).map fun kv => (kv.snd.as_bool).getD false

/-! ### Helper lemmas -/

/-- Clearing never touches the lifecycle state. -/
lemma clear_state (c : NeovimClient) : c.clear.state = c.state := by
  unfold NeovimClient.clear
  split <;> rfl

/-- Unfolding of `non_blocked` on a successful query in terms of the
first-entry flag. -/
lemma non_blocked_ok (mode : List (Value × Value)) (r : NeovimRef) :
    non_blocked (.ok mode) r
      = (blocking_flag mode).bind fun block => if block then none else some r := rfl

/-- One step preserves `atMostOneSlot`, provided `set_nvim_async` is only used
with an empty exclusive slot. -/
lemma atMostOneSlot_applyOp (c : NeovimClient) (op : Op)
    (hc : atMostOneSlot c = true)
    (hop : opGuard c op = true) :
    atMostOneSlot (applyOp c op) = true := by
  cases op with
  | clear =>
    unfold applyOp NeovimClient.clear
    rcases c with ⟨st, n, na⟩
    cases n <;> simp [atMostOneSlot]
  | async_to_sync =>
    rcases c with ⟨st, n, na⟩
    cases na <;> simp_all [applyOp, NeovimClient.async_to_sync, atMostOneSlot]
  | set_nvim_async s =>
    simp_all [applyOp, NeovimClient.set_nvim_async, atMostOneSlot, opGuard]
  | set_initialized => exact hc
  | set_error => exact hc
  | set_in_progress => exact hc
  | borrow => exact hc
  | try_borrow contended => exact hc

/-- A disciplined sequence preserves `atMostOneSlot`, from any starting
state that satisfies it. -/
lemma atMostOneSlot_applyOps (ops : List Op) :
    ∀ c : NeovimClient, atMostOneSlot c = true → disciplined c ops = true →
      atMostOneSlot (applyOps c ops) = true := by
  induction ops with
  | nil => intro c hc _; exact hc
  | cons op ops ih =>
    intro c hc hd
    rw [disciplined, Bool.and_eq_true] at hd
    rw [applyOps, List.foldl_cons]
    exact ih _ (atMostOneSlot_applyOp c op hc hd.1) hd.2

/-- Every operation leaves the lifecycle state unchanged or sets it to one of
the three post-start values; none sets it to `Uninitialized`. -/
lemma applyOp_state (c : NeovimClient) (op : Op) :
    (applyOp c op).state = c.state ∨
      (applyOp c op).state = NeovimClientState.InitInProgress ∨
      (applyOp c op).state = NeovimClientState.Initialized ∨
      (applyOp c op).state = NeovimClientState.Error := by
  cases op with
  | clear => exact Or.inl (clear_state c)
  | async_to_sync =>
    refine Or.inl ?_
    cases h : c.nvim_async <;> simp [applyOp, NeovimClient.async_to_sync, h]
  | set_nvim_async s => exact Or.inl rfl
  | set_initialized => exact Or.inr (Or.inr (Or.inl rfl))
  | set_error => exact Or.inr (Or.inr (Or.inr rfl))
  | set_in_progress => exact Or.inr (Or.inl rfl)
  | borrow => exact Or.inl rfl
  | try_borrow contended => exact Or.inl rfl

/-- One step never re-enters `Uninitialized`. -/
lemma is_uninitialized_applyOp (c : NeovimClient) (op : Op)
    (h : c.is_uninitialized = false) :
    (applyOp c op).is_uninitialized = false := by
  have hs := applyOp_state c op
  unfold NeovimClient.is_uninitialized at h ⊢
  rcases hs with h1 | h1 | h1 | h1 <;> rw [h1] <;> first | exact h | decide

/-! ### The claims -/

/-- C1: after `install_async(s)` (`set_nvim_async`) followed by
`promote_async_to_sync` (`async_to_sync`), the promotion succeeds, `borrow()`
(`nvim`) returns the session through the exclusive-slot `SingleThreaded` path
(so no lock is touched), and `try_borrow` on the shared slot alone returns
absence under any contention, because the session was moved out of it. -/
theorem C1_install_promote_borrow (c : NeovimClient) (s : Session) :
    ∃ c2 : NeovimClient,
      (c.set_nvim_async s).async_to_sync = some c2 ∧
      c2.nvim_op = some (NeovimRef.SingleThreaded s) ∧
      c2.nvim_async = none ∧
      ∀ contended : Bool, NeovimRef.try_nvim_async c2.nvim_async contended = none := by
  refine ⟨{ c with nvim := some s, nvim_async := none }, rfl, rfl, rfl, ?_⟩
  intro contended
  cases contended <;> rfl

/-- C2 counterexample: the claim quantifies over every sequence of operations,
but the sequence install, promote, install reaches a state in which both slots
hold a session, so the at-most-one-slot invariant fails on the code as
claimed. -/
theorem C2_counterexample :
    atMostOneSlot (applyOps NeovimClient.new
      [Op.set_nvim_async 1, Op.async_to_sync, Op.set_nvim_async 2]) = false := by
  decide

/-- C2 amended: in every state reached from `new` by a sequence in which
`set_nvim_async` is only invoked while the exclusive slot is empty, at most
one of the two slots holds a session; each operation moves the session between
slots and never duplicates it. -/
theorem C2_at_most_one_slot (ops : List Op)
    (h : disciplined NeovimClient.new ops = true) :
    atMostOneSlot (applyOps NeovimClient.new ops) = true :=
  atMostOneSlot_applyOps ops NeovimClient.new rfl h

/-- Witness for C2 amended at a concrete disciplined sequence. -/
theorem C2_at_most_one_slot_witness :
    disciplined NeovimClient.new [Op.set_nvim_async 5, Op.async_to_sync, Op.clear] = true ∧
    atMostOneSlot (applyOps NeovimClient.new
      [Op.set_nvim_async 5, Op.async_to_sync, Op.clear]) = true :=
  ⟨by decide, C2_at_most_one_slot [Op.set_nvim_async 5, Op.async_to_sync, Op.clear] (by decide)⟩

/-- C3: `borrow()` (`nvim`) and `try_borrow()` (`try_nvim`) are unified
accessors: with the exclusive slot occupied both return the direct
single-threaded reference without consulting the shared slot; with it empty
both delegate to the shared slot's blocking/non-blocking borrow; and an
unavailable session — both slots empty, or lock contention for the
non-blocking accessor — surfaces as `none`, never as a failure (both
accessors are total functions into `Option`). -/
theorem C3_unified_accessors (c : NeovimClient) (contended : Bool) :
    (∀ s : Session, c.nvim = some s →
      c.try_nvim contended = some (NeovimRef.SingleThreaded s) ∧
      c.nvim_op = some (NeovimRef.SingleThreaded s)) ∧
    (c.nvim = none →
      c.try_nvim contended = NeovimRef.try_nvim_async c.nvim_async contended ∧
      c.nvim_op = NeovimRef.from_nvim_async c.nvim_async) ∧
    (c.nvim = none → c.nvim_async = none →
      c.try_nvim contended = none ∧ c.nvim_op = none) ∧
    (c.nvim = none → contended = true → c.try_nvim contended = none) := by
  refine ⟨?_, ?_, ?_, ?_⟩
  · intro s hs
    constructor <;> simp [NeovimClient.try_nvim, NeovimClient.nvim_op, hs]
  · intro hn
    constructor <;> simp [NeovimClient.try_nvim, NeovimClient.nvim_op, hn]
  · intro hn hna
    constructor <;>
      simp [NeovimClient.try_nvim, NeovimClient.nvim_op, hn, hna,
        NeovimRef.try_nvim_async, NeovimRef.from_nvim_async]
  · intro hn hcont
    simp [NeovimClient.try_nvim, hn, hcont, NeovimRef.try_nvim_async]

/-- Witness for C3 at a concrete occupied exclusive slot. -/
theorem C3_unified_accessors_witness :
    NeovimClient.try_nvim ⟨NeovimClientState.Initialized, some 7, none⟩ false
      = some (NeovimRef.SingleThreaded 7) :=
  ((C3_unified_accessors ⟨NeovimClientState.Initialized, some 7, none⟩ false).1 7 rfl).1

/-- C4: `non_blocked()` returns the same reference present exactly when the
mode query succeeds and its first "blocking" entry reads as `false`
(non-blocking); it returns absence when that entry reads `true` and when the
query itself fails — the failed query is handed to `ok_and_report` (logging
collaborator) and treated as blocked; and the result is never anything other
than absence or the original reference. -/
theorem C4_non_blocked (res : Except Unit (List (Value × Value))) (r : NeovimRef) :
    (non_blocked res r = some r ↔
      ∃ mode, res = Except.ok mode ∧ blocking_flag mode = some false) ∧
    (∀ mode, res = Except.ok mode → blocking_flag mode = some true →
      non_blocked res r = none) ∧
    (∀ e : Unit, res = Except.error e → non_blocked res r = none) ∧
    (non_blocked res r = none ∨ non_blocked res r = some r) := by
  refine ⟨⟨?_, ?_⟩, ?_, ?_, ?_⟩
  · intro h
    cases res with
    | error e => simp [non_blocked, ok_and_report, Except.toOption] at h
    | ok mode =>
      refine ⟨mode, rfl, ?_⟩
      rw [non_blocked_ok] at h
      cases hb : blocking_flag mode with
      | none => rw [hb] at h; simp at h
      | some b =>
        rw [hb] at h
        cases b with
        | true => simp at h
        | false => rfl
  · rintro ⟨mode, rfl, hb⟩
    rw [non_blocked_ok, hb]
    rfl
  · intro mode hres hb
    subst hres
    rw [non_blocked_ok, hb]
    rfl
  · intro e hres
    subst hres
    rfl
  · cases res with
    | error e => exact Or.inl rfl
    | ok mode =>
      rw [non_blocked_ok]
      cases hb : blocking_flag mode with
      | none => exact Or.inl rfl
      | some b => cases b with
        | true => exact Or.inl rfl
        | false => exact Or.inr rfl

/-- Witness for C4: a query reporting blocking yields absence. -/
theorem C4_non_blocked_witness :
    non_blocked (Except.ok [(Value.str "blocking", Value.boolean true)])
      (NeovimRef.SingleThreaded 0) = none :=
  (C4_non_blocked (Except.ok [(Value.str "blocking", Value.boolean true)])
      (NeovimRef.SingleThreaded 0)).2.1
    [(Value.str "blocking", Value.boolean true)] rfl (by decide)

/-- C5: promotion with an empty shared slot is a contract violation: the
`unwrap` aborts (modelled by `none`, there being no error return in the Rust
signature) exactly when the shared slot is empty; when it succeeds it moves
the shared slot's session into the exclusive slot, leaving the shared slot
empty and the lifecycle state untouched — no branch converts the empty-slot
condition into a recoverable result. -/
theorem C5_promotion_contract (c : NeovimClient) :
    (c.async_to_sync = none ↔ c.nvim_async = none) ∧
    (∀ c2 : NeovimClient, c.async_to_sync = some c2 →
      c2.nvim = c.nvim_async ∧ c2.nvim_async = none ∧ c2.state = c.state) := by
  constructor
  · cases h : c.nvim_async <;> simp [NeovimClient.async_to_sync, h]
  · intro c2 h2
    cases h : c.nvim_async with
    | none => rw [NeovimClient.async_to_sync, h] at h2; cases h2
    | some s =>
      rw [NeovimClient.async_to_sync, h] at h2
      cases h2
      exact ⟨rfl, rfl, rfl⟩

/-- Witness for C5: promotion on an empty shared slot aborts. -/
theorem C5_promotion_contract_witness :
    NeovimClient.async_to_sync ⟨NeovimClientState.InitInProgress, none, none⟩ = none :=
  (C5_promotion_contract ⟨NeovimClientState.InitInProgress, none, none⟩).1.mpr rfl

/-- C6 counterexample: the claim quantifies over every state, but on a handle
whose two slots both hold a session (reachable, see the C2 counterexample)
the first of two consecutive `clear()` calls empties only the exclusive slot,
so it is false that both slots are empty after each of the two calls. -/
theorem C6_counterexample :
    ¬ ((NeovimClient.clear ⟨NeovimClientState.Initialized, some 1, some 2⟩).nvim = none ∧
       (NeovimClient.clear ⟨NeovimClientState.Initialized, some 1, some 2⟩).nvim_async
         = none) := by
  decide

/-- C6 amended: `clear()` on a handle with both slots empty is a no-op; two
consecutive `clear()` calls always leave both slots empty after the second
call; and when at most one slot is occupied — every state reachable under the
usage discipline — already the first `clear()` leaves both slots empty, so
both calls do. -/
theorem C6_clear_idempotent (c : NeovimClient) :
    (c.nvim = none → c.nvim_async = none → c.clear = c) ∧
    ((c.clear.clear).nvim = none ∧ (c.clear.clear).nvim_async = none) ∧
    (atMostOneSlot c = true → c.clear.nvim = none ∧ c.clear.nvim_async = none) := by
  rcases c with ⟨st, n, na⟩
  refine ⟨?_, ?_, ?_⟩
  · intro hn hna
    subst hn; subst hna
    rfl
  · cases n <;> cases na <;> simp [NeovimClient.clear]
  · intro h
    cases n <;> cases na <;> simp_all [NeovimClient.clear, atMostOneSlot]

/-- Witness for C6 at the empty handle. -/
theorem C6_clear_idempotent_witness :
    NeovimClient.clear ⟨NeovimClientState.Uninitialized, none, none⟩
      = ⟨NeovimClientState.Uninitialized, none, none⟩ :=
  (C6_clear_idempotent ⟨NeovimClientState.Uninitialized, none, none⟩).1 rfl rfl

/-- C7: once the lifecycle state has left `Uninitialized`, no sequence of
operations (setters, clear, install, promote, borrow, try-borrow) ever makes
`is_uninitialized` true again. -/
theorem C7_never_uninitialized_again (c : NeovimClient) (ops : List Op)
    (h : c.is_uninitialized = false) :
    (applyOps c ops).is_uninitialized = false := by
  induction ops generalizing c with
  | nil => exact h
  | cons op ops ih =>
    rw [applyOps, List.foldl_cons]
    exact ih _ (is_uninitialized_applyOp c op h)

/-- Witness for C7 on a concrete post-start state and sequence. -/
theorem C7_never_uninitialized_again_witness :
    (applyOps (NeovimClient.new.set_in_progress)
      [Op.set_error, Op.clear, Op.set_initialized, Op.set_nvim_async 4,
       Op.async_to_sync, Op.borrow]).is_uninitialized = false :=
  C7_never_uninitialized_again (NeovimClient.new.set_in_progress)
    [Op.set_error, Op.clear, Op.set_initialized, Op.set_nvim_async 4,
     Op.async_to_sync, Op.borrow] (by decide)

/-- C8: after `set_error()` the state is `Error`, so `is_initialized`,
`is_uninitialized` and `is_initializing` are all false, whatever the prior
lifecycle state. -/
theorem C8_set_error_predicates (c : NeovimClient) :
    (c.set_error).is_initialized = false ∧
    (c.set_error).is_uninitialized = false ∧
    (c.set_error).is_initializing = false :=
  ⟨rfl, rfl, rfl⟩

/-- C9 counterexample: on an `Initialized` handle whose two slots both hold a
session (reachable, see the C2 counterexample), `clear()` leaves
`is_initialized` true but a session is still installed — `try_nvim` still
returns a reference — contradicting the claim's "no session installed". -/
theorem C9_counterexample :
    (NeovimClient.clear ⟨NeovimClientState.Initialized, some 1, some 2⟩).is_initialized
      = true ∧
    (NeovimClient.clear
        ⟨NeovimClientState.Initialized, some 1, some 2⟩).try_nvim false ≠ none := by
  decide

/-- C9 amended: `clear()` modifies only the two session slots: the lifecycle
state — hence every lifecycle predicate — is exactly the same before and
after, so clearing an `Initialized` handle leaves `is_initialized` true; and
when at most one slot was occupied, afterwards no session is installed: both
accessors return absence. -/
theorem C9_clear_frame (c : NeovimClient) :
    c.clear.state = c.state ∧
    c.clear.is_initialized = c.is_initialized ∧
    c.clear.is_uninitialized = c.is_uninitialized ∧
    c.clear.is_initializing = c.is_initializing ∧
    (atMostOneSlot c = true → ∀ contended : Bool,
      c.clear.try_nvim contended = none ∧ c.clear.nvim_op = none) := by
  refine ⟨clear_state c, ?_, ?_, ?_, ?_⟩
  · unfold NeovimClient.is_initialized; rw [clear_state]
  · unfold NeovimClient.is_uninitialized; rw [clear_state]
  · unfold NeovimClient.is_initializing; rw [clear_state]
  · intro h contended
    rcases c with ⟨st, n, na⟩
    cases n <;> cases na <;>
      simp_all [NeovimClient.clear, atMostOneSlot, NeovimClient.try_nvim,
        NeovimClient.nvim_op, NeovimRef.try_nvim_async, NeovimRef.from_nvim_async]

/-- Witness for C9 on a concrete handle with only the shared slot occupied. -/
theorem C9_clear_frame_witness :
    (NeovimClient.clear ⟨NeovimClientState.Initialized, none, some 3⟩).try_nvim true
      = none :=
  ((C9_clear_frame ⟨NeovimClientState.Initialized, none, some 3⟩).2.2.2.2 rfl true).1

/-- C10: on a successful mode query, `non_blocked` decides from the first map
entry whose key is the string "blocking": with no such entry the result is
absence (treated as blocked); with such an entry whose value is not a boolean
the value defaults to `false` and the reference is returned present; with a
boolean value `b` the reference is returned exactly when `b` is false. -/
theorem C10_blocking_entry (mode : List (Value × Value)) (r : NeovimRef) :
    (mode.find? is_blocking_entry = none → non_blocked (Except.ok mode) r = none) ∧
    (∀ kv : Value × Value, mode.find? is_blocking_entry = some kv →
      kv.snd.as_bool = none → non_blocked (Except.ok mode) r = some r) ∧
    (∀ (kv : Value × Value) (b : Bool), mode.find? is_blocking_entry = some kv →
      kv.snd.as_bool = some b →
      non_blocked (Except.ok mode) r = if b then none else some r) := by
  refine ⟨?_, ?_, ?_⟩
  · intro hf
    rw [non_blocked_ok, blocking_flag, hf]
    rfl
  · intro kv hf hb
    rw [non_blocked_ok, blocking_flag, hf]
    simp [hb]
  · intro kv b hf hb
    rw [non_blocked_ok, blocking_flag, hf]
    cases b <;> simp [hb]

/-- Witness for C10: the first "blocking" entry has a non-boolean value, so it
defaults to non-blocking and the reference stays present. -/
theorem C10_blocking_entry_witness :
    non_blocked
      (Except.ok [(Value.str "x", Value.boolean true), (Value.str "blocking", Value.int 5)])
      (NeovimRef.MultiThreaded 1) = some (NeovimRef.MultiThreaded 1) :=
  (C10_blocking_entry
      [(Value.str "x", Value.boolean true), (Value.str "blocking", Value.int 5)]
      (NeovimRef.MultiThreaded 1)).2.1
    (Value.str "blocking", Value.int 5) (by decide) rfl
